import Mathlib

/-!
Verification of the DeepWalkerAnims repository: a shallow embedding of the
two host-automation scripts `anim_write.py` (animation exporter) and
`maya_urdf/maya_build_urdf.py` (URDF robot builder), together with theorems
settling the specification claims.

Conventions of the embedding:
* Python floats are modelled as rationals (`ℚ`); all values the theorems
  touch are exactly representable in IEEE double, so the rational model is
  faithful on them.
* The host (Maya) scripting API is a collaborator outside the repository:
  it is modelled by a `Scene` record of query functions.  Host node-creation
  commands are modelled as returning the requested node name (fresh scene,
  no name clashes), and host-side argument validation is out of scope.
* Fallible Python code is modelled with `Except PyErr`; an uncaught Python
  exception is an `Except.error`.
* `print` calls relevant to the claims are modelled as `LogEvent` values
  carrying the arguments of the format string (the exact rendered text of a
  Python format string is immaterial to every claim).
-/

namespace DW

/-- Python exception kinds that the embedded code can raise. -/
inductive PyErr where
  /-- `NameError`: the undefined global `cmds` (the module imports
  `maya.cmds as cmd`), hit at the freeze-transforms line of `_build_geo`. -/
  | nameErrorCmds
  /-- `AttributeError`, e.g. `None.find(...)`. -/
  | attributeError
  /-- `TypeError`, e.g. `None[0]` or `f(**None)`. -/
  | typeError
  /-- `ValueError`, e.g. `float("abc")`. -/
  | valueError
  /-- `IndexError`, e.g. `elem[0]` on an element with no children. -/
  | indexError
deriving DecidableEq

/-! ## Python string primitives

Python strings are sequences of characters; names manipulated by the
scripts are modelled as `String` (with `List Char` views where the proofs
need structural recursion). -/

/-- Python `s.partition(sep)` on character lists: split at the first
occurrence of `sep`, returning `(before, sep, after)`; if `sep` does not
occur, `(s, [], [])`. -/
def pyPartition (sep : List Char) : List Char → List Char × List Char × List Char
  | [] => if sep.isPrefixOf [] then ([], sep, List.drop sep.length []) else ([], [], [])
  | c :: rest =>
    if sep.isPrefixOf (c :: rest) then ([], sep, (c :: rest).drop sep.length)
    else
      let r := pyPartition sep rest
      if r.2.1 = [] then (c :: rest, [], [])
      else (c :: r.1, r.2.1, r.2.2)

/-- Numeric value of a list of decimal digit characters, as Python
`int`/`float` reads them (most significant first). -/
def digitsToNat (l : List Char) : Nat :=
  l.foldl (fun a c => 10 * a + (c.toNat - 48)) 0

/-- Python `float(s)` on the grammar `[sign] digits [ "." digits ]` that the
scripts feed it (whitespace, exponents and `inf`/`nan` spellings never
arise here); any other input raises `ValueError`, as `float` does. -/
def pyFloat (s : List Char) : Except PyErr ℚ :=
  let isNeg := s.take 1 = ['-']
  let rest := if s.take 1 = ['-'] ∨ s.take 1 = ['+'] then s.drop 1 else s
  let signed : ℚ → ℚ := fun q => if isNeg then -q else q
  let intPart := rest.takeWhile Char.isDigit
  let rest2 := rest.dropWhile Char.isDigit
  match rest2 with
  | [] =>
    if intPart = [] then .error .valueError
    else .ok (signed (digitsToNat intPart : ℚ))
  | '.' :: frac =>
    if frac.all Char.isDigit ∧ (intPart ≠ [] ∨ frac ≠ []) then
      .ok (signed ((digitsToNat intPart : ℚ)
        + (digitsToNat frac : ℚ) / (10 : ℚ) ^ frac.length))
    else .error .valueError
  | _ => .error .valueError

/-- Python `s.split(sep)` for a one-character separator: split at every
occurrence, keeping empty pieces. -/
def pySplit (s : List Char) (sep : Char) : List (List Char) :=
  s.splitOn sep

/-- Python `s.endswith(suffix)` (on the character-sequence view; the
built-in `String.endsWith` is avoided because its byte-position arithmetic
does not reduce well in proofs). -/
def pyEndsWith (s suffix : String) : Bool :=
  suffix.toList.isSuffixOf s.toList

/-! ## anim_write.py — data model -/

/-- A triple of floats, as returned by `cmd.xform` queries. -/
abbrev Vec3 := ℚ × ℚ × ℚ

/-- Componentwise `[k * x for x in v]`. -/
def vscale (k : ℚ) (v : Vec3) : Vec3 := (k * v.1, k * v.2.1, k * v.2.2)

/-- Componentwise `[a[i] - b[i] for i in range(len(a))]`. -/
def vsub (a b : Vec3) : Vec3 := (a.1 - b.1, a.2.1 - b.2.1, a.2.2 - b.2.2)

/-- The zero vector, the `[0.0, 0.0, 0.0]` defaults of `MayaJointState`. -/
def v3zero : Vec3 := (0, 0, 0)

/-- `MayaJointState`: kinematic data about a joint in Maya space
(`anim_write.py`, class `MayaJointState`). -/
structure MayaJointState where
  lrot : Vec3
  lrotvel : Vec3
  wrot : Vec3
  wrotvel : Vec3
  wpos : Vec3
  wposvel : Vec3
deriving DecidableEq

/-- The host scene: the Maya query API used by `anim_write.py`.  Transform
queries are indexed by the frame number the script has set via
`cmd.currentTime` immediately before querying. -/
structure Scene where
  /-- `cmd.playbackOptions(q=True, minTime=True)` after `int(...)`. -/
  playbackMin : Int
  /-- `cmd.playbackOptions(q=True, maxTime=True)` after `int(...)`. -/
  playbackMax : Int
  /-- `cmd.objExists(name)`. -/
  objExists : String → Bool
  /-- `cmd.xform(j, q=True, rotation=True, objectSpace=True)` at a frame. -/
  lrot : String → Int → Vec3
  /-- `cmd.xform(j, q=True, rotation=True, worldSpace=True)` at a frame. -/
  wrot : String → Int → Vec3
  /-- `cmd.xform(j, q=True, translation=True, worldSpace=True)` at a frame. -/
  wpos : String → Int → Vec3
  /-- `cmd.angleBetween(vector1=v1, vector2=v2, euler=True)`. -/
  angleBetween : Vec3 → Vec3 → Vec3
  /-- `cmd.currentUnit(q=True, time=True)`. -/
  currentUnit : String

/-- `HUMANOID_JOINT_NAMES` (`anim_write.py`). -/
def HUMANOID_JOINT_NAMES : List String :=
  ["root", "chest", "neck",
   "right_shoulder", "right_elbow", "right_wrist",
   "left_shoulder", "left_elbow", "left_wrist",
   "right_hip", "right_knee", "right_ankle",
   "left_hip", "left_knee", "left_ankle"]

/-- `HUMANOID_NAMESPACE` (`anim_write.py`). -/
def HUMANOID_NAMESPACE : String := "humanoid_hik"

/-- The Maya node name looked up for a humanoid joint:
`HUMANOID_NAMESPACE + ":skel:" + joint_name` (`_add_frame_to_xml`). -/
def m_joint_name (joint_name : String) : String :=
  HUMANOID_NAMESPACE ++ ":skel:" ++ joint_name

/-- `FPS = 30` — the module-level initial value (`anim_write.py` line 26),
overwritten at the bottom of the module by `FPS = get_maya_fps()`. -/
def FPS_initial : ℚ := 30

/-- The `fps_codes` dictionary of `get_maya_fps`. -/
def fps_codes : List (String × ℚ) :=
  [("game", 15), ("film", 24), ("pal", 25), ("ntsc", 30),
   ("show", 48), ("palf", 50), ("ntscf", 60)]

/-- `get_maya_fps` (`anim_write.py`): maps the host time-unit string to a
frame rate.  Unit strings ending in `"fps"` are parsed as a float (the
part before `"fps"`); other strings are looked up in `fps_codes`, and an
unknown code yields `-1` (after printing an error). -/
def get_maya_fps (unit : String) : Except PyErr ℚ :=
  if ¬ pyEndsWith unit "fps" then
    let fps : ℚ :=
      match fps_codes.lookup unit with
      | some v => v
      | none => -1
    if fps = -1 then .ok (-1) else .ok fps
  else
    match pyFloat (pyPartition "fps".toList unit.toList).1 with
    | .ok q => .ok q
    | .error e => .error e

/-- The module-level rebinding `FPS = get_maya_fps()` executed at import
time (`anim_write.py` line 278), parameterized by the host unit string. -/
def FPS_loaded (unit : String) : Except PyErr ℚ := get_maya_fps unit

/-- `get_joint_state(m_joint, m_frame, get_vel=False)`: the transform
queries without velocities (velocity fields keep the `[0.0,0.0,0.0]`
constructor defaults). -/
def get_joint_state_novel (scene : Scene) (m_joint : String) (m_frame : Int) :
    MayaJointState :=
  ⟨scene.lrot m_joint m_frame, v3zero,
   scene.wrot m_joint m_frame, v3zero,
   scene.wpos m_joint m_frame, v3zero⟩

/-- `get_joint_state` (`anim_write.py`).  When `get_vel` is true the source
recursively calls itself at `m_frame - 1` with `get_vel=False`; that inner
call is exactly `get_joint_state_novel`, unrolled here so the definition is
structurally recursive.  `fps` is the module global `FPS`. -/
def get_joint_state (scene : Scene) (fps : ℚ) (m_joint : String)
    (m_frame : Int) (get_vel : Bool) : MayaJointState :=
  let lrot := scene.lrot m_joint m_frame
  let wrot := scene.wrot m_joint m_frame
  let wpos := scene.wpos m_joint m_frame
  if get_vel then
    let prev_state := get_joint_state_novel scene m_joint (m_frame - 1)
    let delta_time : ℚ := 1 / fps
    -- source: `lrotvel = [ delta_time * x for x in lrotvel ]` — the delta
    -- is MULTIPLIED by the frame duration, not divided by it
    let lrotvel := vscale delta_time (scene.angleBetween prev_state.lrot lrot)
    let wrotvel := vscale delta_time (scene.angleBetween prev_state.wrot wrot)
    let wposvel := vscale delta_time (vsub wpos prev_state.wpos)
    ⟨lrot, lrotvel, wrot, wrotvel, wpos, wposvel⟩
  else
    ⟨lrot, v3zero, wrot, v3zero, wpos, v3zero⟩

/-! ## anim_write.py — XML output model

`xml.etree.ElementTree` elements as built by the exporter: a tag, an
optional text payload, and a list of child elements.  Text payloads are the
values passed to `str(...)` (frame indices, joint names, floats), kept as
values rather than rendered decimal text — no claim depends on the decimal
rendering. -/

/-- The `.text` payload of an element. -/
inductive XVal where
  /-- No text assigned. -/
  | noText
  /-- `str(n)` of a frame index. -/
  | ofNat (n : Nat)
  /-- A joint name string. -/
  | ofStr (s : String)
  /-- `str(x)` of a float value. -/
  | ofRat (q : ℚ)
deriving DecidableEq

/-- An XML element: tag, text, children. -/
inductive Xml where
  | elem (tag : String) (text : XVal) (children : List Xml)

/-- Boolean equality of `Xml` trees. -/
def Xml.beq : Xml → Xml → Bool
  | .elem t1 x1 c1, .elem t2 x2 c2 =>
    t1 = t2 && x1 = x2 && go c1 c2
where
  /-- Pointwise boolean equality of child lists. -/
  go : List Xml → List Xml → Bool
    | [], [] => true
    | a :: as, b :: bs => Xml.beq a b && go as bs
    | _, _ => false

mutual

theorem Xml.beq_iff : ∀ a b : Xml, Xml.beq a b = true ↔ a = b
  | .elem t1 x1 c1, .elem t2 x2 c2 => by
    simp only [Xml.beq, Bool.and_eq_true, decide_eq_true_eq, Xml.elem.injEq]
    rw [Xml.beqGo_iff c1 c2]
    tauto

theorem Xml.beqGo_iff : ∀ l1 l2 : List Xml, Xml.beq.go l1 l2 = true ↔ l1 = l2
  | [], [] => by simp [Xml.beq.go]
  | [], _ :: _ => by simp [Xml.beq.go]
  | _ :: _, [] => by simp [Xml.beq.go]
  | a :: as, b :: bs => by
    simp only [Xml.beq.go, Bool.and_eq_true, List.cons.injEq]
    rw [Xml.beq_iff a b, Xml.beqGo_iff as bs]

end

instance : DecidableEq Xml := fun a b =>
  decidable_of_iff (Xml.beq a b = true) (Xml.beq_iff a b)

instance : Inhabited Xml := ⟨.elem "" .noText []⟩

/-- The tag of an element. -/
def Xml.tag : Xml → String
  | .elem t _ _ => t

/-- The children of an element. -/
def Xml.children : Xml → List Xml
  | .elem _ _ c => c

/-- Print events of the exporter, carrying the format-string arguments. -/
inductive LogEvent where
  /-- `print("start: {}, end: {}".format(...))` in `export_anim`. -/
  | startEnd (m_start m_end : Int)
  /-- `print("{} does not exist".format(m_joint))` in `_add_frame_to_xml`. -/
  | jointDoesNotExist (m_joint : String)
  /-- `print("[{}]: {}".format(index, m_joint))` in `_add_frame_to_xml`. -/
  | jointVisited (index : Nat) (m_joint : String)
  /-- `print("Exported animation to {}".format(filepath))` in `export_anim`. -/
  | exportedTo (filepath : String)
deriving DecidableEq

/-- `_add_3f_xml_element` (`anim_write.py`): an element with three
float-valued children under the given axis names. -/
def _add_3f_xml_element (name : String) (f1name : String) (f1 : ℚ)
    (f2name : String) (f2 : ℚ) (f3name : String) (f3 : ℚ) : Xml :=
  .elem name .noText
    [.elem f1name (.ofRat f1) [], .elem f2name (.ofRat f2) [],
     .elem f3name (.ofRat f3) []]

/-- `_add_joint_to_xml` (`anim_write.py`): the `<joint>` element for one
joint sample — a `<name>` child then the six axis-labelled triples. -/
def _add_joint_to_xml (name : String) (state : MayaJointState) : Xml :=
  .elem "joint" .noText
    [.elem "name" (.ofStr name) [],
     _add_3f_xml_element "lrot" "y" state.lrot.1 "p" state.lrot.2.1 "r" state.lrot.2.2,
     _add_3f_xml_element "lrotvel" "y" state.lrotvel.1 "p" state.lrotvel.2.1 "r" state.lrotvel.2.2,
     _add_3f_xml_element "wrot" "y" state.wrot.1 "p" state.wrot.2.1 "r" state.wrot.2.2,
     _add_3f_xml_element "wrotvel" "y" state.wrotvel.1 "p" state.wrotvel.2.1 "r" state.wrotvel.2.2,
     _add_3f_xml_element "wpos" "x" state.wpos.1 "y" state.wpos.2.1 "z" state.wpos.2.2,
     _add_3f_xml_element "wposvel" "x" state.wposvel.1 "y" state.wposvel.2.1 "z" state.wposvel.2.2]

/-- The per-joint loop body of `_add_frame_to_xml`, over the remaining
`enumerate(HUMANOID_JOINT_NAMES)` pairs: a missing joint is logged and
skipped (`continue`), an existing one is logged and its `<joint>` element
appended. -/
def _pose_loop (scene : Scene) (fps : ℚ) (m_frame : Int) :
    List (Nat × String) → List Xml × List LogEvent
  | [] => ([], [])
  | (index, joint_name) :: rest =>
    let m_joint := m_joint_name joint_name
    let r := _pose_loop scene fps m_frame rest
    if scene.objExists m_joint then
      (_add_joint_to_xml joint_name (get_joint_state scene fps m_joint m_frame true) :: r.1,
       .jointVisited index m_joint :: r.2)
    else
      (r.1, .jointDoesNotExist m_joint :: r.2)

/-- `_add_frame_to_xml` (`anim_write.py`): the `<frame>` element — a `<no>`
child holding the zero-based index and a `<pose>` child holding one
`<joint>` element per existing humanoid joint — plus the prints made while
building it. -/
def _add_frame_to_xml (scene : Scene) (fps : ℚ) (frame_no : Nat)
    (m_frame : Int) : Xml × List LogEvent :=
  let r := _pose_loop scene fps m_frame HUMANOID_JOINT_NAMES.enum
  (.elem "frame" .noText
    [.elem "no" (.ofNat frame_no) [], .elem "pose" .noText r.1], r.2)

/-- `EXPORT_FOLDER` (`anim_write.py`). -/
def EXPORT_FOLDER : String := "R:\\Code\\DeepWalkerAnims\\anims"

/-- `export_anim` (`anim_write.py`): iterates
`enumerate(range(m_start_frame, m_end_frame, 1))` — the playback maximum
frame is excluded by `range` — building one `<frame>` element per step
under the `<anim>` root; returns the written tree and the prints. -/
def export_anim (scene : Scene) (fps : ℚ) (filename : String) :
    Xml × List LogEvent :=
  let m_start_frame := scene.playbackMin
  let m_end_frame := scene.playbackMax
  let n := (m_end_frame - m_start_frame).toNat
  let results := (List.range n).map
    (fun frame_no => _add_frame_to_xml scene fps frame_no (m_start_frame + frame_no))
  let filepath := EXPORT_FOLDER ++ "\\" ++ filename ++ ".anim.xml"
  (.elem "anim" .noText (results.map Prod.fst),
   .startEnd m_start_frame m_end_frame ::
     results.flatMap Prod.snd ++ [.exportedTo filepath])

/-! ## maya_build_urdf.py — parsers and converters -/

/-- `SPACE_RATIO_URDF_TO_MAYA = 10` (`maya_build_urdf.py`). -/
def SPACE_RATIO_URDF_TO_MAYA : ℚ := 10

/-- `_parse_float` (`maya_build_urdf.py`): `float(elem)` when the attribute
is present, `None` otherwise (the `verbose` print is omitted — `verbose`
defaults to `False` and no caller passes it). -/
def _parse_float (elem : Option String) : Except PyErr (Option ℚ) :=
  match elem with
  | some s => do
    let q ← pyFloat s.toList
    return some q
  | none => .ok none

/-- The comprehension `[ float(x) for x in text.split(" ") ]`: left to
right, the first `ValueError` aborting the whole list. -/
def mapFloats : List (List Char) → Except PyErr (List ℚ)
  | [] => .ok []
  | s :: rest => do
    let q ← pyFloat s
    let qs ← mapFloats rest
    return q :: qs

/-- `_parse_multi_float` (`maya_build_urdf.py`): split the attribute text on
single spaces and `float(...)` each piece; `None` input gives `None`.  (The
`elem is not -1` identity test is vacuous on the `Option String` inputs the
script passes.) -/
def _parse_multi_float (elem : Option String) : Except PyErr (Option (List ℚ)) :=
  match elem with
  | some text => (mapFloats (pySplit text.toList ' ')).map some
  | none => .ok none

/-- `_convert_urdf_dist` (`maya_build_urdf.py`). -/
def _convert_urdf_dist (u_distance : Option ℚ) (is_size : Bool) : Option ℚ :=
  match u_distance with
  | some d => some (d * SPACE_RATIO_URDF_TO_MAYA)
  | none => none

/-- `_convert_urdf_vector` (`maya_build_urdf.py`). -/
def _convert_urdf_vector (u_xyz : Option (List ℚ)) (is_size : Bool) :
    Option (List ℚ) :=
  match u_xyz with
  | some l => some (l.map (fun c => (_convert_urdf_dist (some c) is_size).getD 0))
  | none => none

/-- The value `math.degrees(c)` — `c · 180 / π` — is irrational-valued, so
it is represented symbolically (and injectively) by its radian argument; no
claim depends on the numeric degree value. -/
structure Deg where
  rad : ℚ
deriving DecidableEq

/-- `math.degrees`. -/
def degrees (c : ℚ) : Deg := ⟨c⟩

/-- `_convert_urdf_rotation` (`maya_build_urdf.py`). -/
def _convert_urdf_rotation (u_rpy : Option (List ℚ)) : Option (List Deg) :=
  match u_rpy with
  | some l => some (l.map degrees)
  | none => none

/-- An `<origin>` element: its `xyz` and `rpy` attribute strings. -/
structure UOrigin where
  xyz : Option String
  rpy : Option String
deriving DecidableEq

/-- The `{"t": ..., "ro": ...}` dict built by
`_parse_and_convert_transform` and splatted into `cmd.xform`. -/
structure MTransform where
  t : Option (List ℚ)
  ro : Option (List Deg)
deriving DecidableEq

/-- `_parse_and_convert_transform` (`maya_build_urdf.py`). -/
def _parse_and_convert_transform (elem : Option UOrigin) :
    Except PyErr (Option MTransform) :=
  match elem with
  | some e => do
    let u_xyz ← _parse_multi_float e.xyz
    let u_rpy ← _parse_multi_float e.rpy
    return some ⟨_convert_urdf_vector u_xyz false, _convert_urdf_rotation u_rpy⟩
  | none => .ok none

/-! ## maya_build_urdf.py — name mapping -/

/-- `_get_joint` (`maya_build_urdf.py`): `"skel:" + name.partition("geo:")[2]`.
Names are `List Char` (Python strings are character sequences). -/
def _get_joint (name : List Char) : List Char :=
  "skel:".toList ++ (pyPartition "geo:".toList name).2.2

/-- `_get_geo` (`maya_build_urdf.py`): `"geo:" + name.partition("skel:")[2]`. -/
def _get_geo (name : List Char) : List Char :=
  "geo:".toList ++ (pyPartition "skel:".toList name).2.2

/-! ## maya_build_urdf.py — materials -/

/-- `_create_checkerboard_mat` (`maya_build_urdf.py`): creates host shader
nodes and returns the lambert node name — modelled as returning the
requested name. -/
def _create_checkerboard_mat (name : String) (color1 color2 : List ℚ)
    (tiling_u tiling_v offset_u : ℚ) : String := name

/-- `_create_mat` (`maya_build_urdf.py`): as `_create_checkerboard_mat`,
without the checker texture. -/
def _create_mat (name : String) (color : List ℚ) : String := name

/-- `CAPSULE_MATS` as initialized by `_init_mats`. -/
def CAPSULE_MATS : List String :=
  [_create_checkerboard_mat "cap_r" [1,0,0] [0.6,0,0] 1 1 0,
   _create_checkerboard_mat "cap_g" [0,1,0] [0,0.6,0] 1 1 0,
   _create_checkerboard_mat "cap_b" [0,0,1] [0,0,0.6] 1 1 0,
   _create_checkerboard_mat "cap_y" [1,1,0] [0.6,0.6,0] 1 1 0]

/-- `SPHERE_MATS` as initialized by `_init_mats`. -/
def SPHERE_MATS : List String :=
  [_create_checkerboard_mat "sph_r" [1,0,0] [0.6,0,0] 1 1 0.05,
   _create_checkerboard_mat "sph_g" [0,1,0] [0,0.6,0] 1 1 0.05,
   _create_checkerboard_mat "sph_b" [0,0,1] [0,0,0.6] 1 1 0.05,
   _create_checkerboard_mat "sph_y" [1,1,0] [0.6,0.6,0] 1 1 0.05]

/-- `BOX_MATS` as initialized by `_init_mats`. -/
def BOX_MATS : List String :=
  [_create_mat "box_r" [1,0,0], _create_mat "box_g" [0,1,0],
   _create_mat "box_b" [0,0,1], _create_mat "box_y" [1,1,0]]

/-- `_assign_mat` (`maya_build_urdf.py`), with the process-wide
`MAT_COUNTER` global passed and returned explicitly: returns the assigned
material (if any), the updated counter, and the function's return value.
`u_shape` is `Option String` because `_build_geo` can hand back `None`. -/
def _assign_mat (u_shape : Option String) (mat_counter : Nat) :
    Option String × Nat × Bool :=
  let mats? : Option (List String) :=
    if u_shape = some "capsule" then some CAPSULE_MATS
    else if u_shape = some "sphere" then some SPHERE_MATS
    else if u_shape = some "box" then some BOX_MATS
    else none
  match mats? with
  | none => (none, mat_counter, false)
  | some mats =>
    (some (mats.getD (mat_counter % mats.length) ""), mat_counter + 1, true)

/-! ## maya_build_urdf.py — link geometry construction -/

/-- The first child of a `<geometry>` element: its tag and the attributes
`_build_geo` reads. -/
structure UGeo where
  tag : String
  radius : Option String
  length : Option String
  size : Option String
deriving DecidableEq

/-- A `<collision>` element: its `<origin>` child and the children of its
`<geometry>` child (`none` when the `<geometry>` child is absent). -/
structure UCollision where
  origin : Option UOrigin
  geometry : Option (List UGeo)
deriving DecidableEq

/-- An `<inertial>` element: its `<origin>` child. -/
structure UInertial where
  origin : Option UOrigin
deriving DecidableEq

/-- A `<link>` element, with the children `_build_geo` reads. -/
structure ULink where
  name : String
  inertial : Option UInertial
  collision : Option UCollision
deriving DecidableEq

/-- Python truthiness of the `u_collision` value in `if not u_collision:`:
falsy when the element is absent or has no children.  (Collisions read here
have only `<origin>`/`<geometry>` children.) -/
def collisionFalsy (c : Option UCollision) : Bool :=
  match c with
  | none => true
  | some c => c.origin.isNone && c.geometry.isNone

/-- Print events of `_build_geo`, carrying the format arguments. -/
inductive BLogEvent where
  /-- The locator message for a link without collision. -/
  | creatingLocator (link_name : String)
  /-- The tabulated found-stuff block, keyed by link name and shape. -/
  | buildingLinkGeo (m_name : String) (u_shape : String)
  /-- The unknown-shape warning. -/
  | cantBuildGeo (m_name : String) (u_shape : String)
deriving DecidableEq

/-- The data available when `_build_geo` reaches its dispatch section. -/
structure ParsedGeo where
  m_name : String
  u_shape : String
  m_origin : Option MTransform
  m_radius : Option ℚ
  m_length : Option ℚ
  m_size : Option (List ℚ)
deriving DecidableEq

/-- The parse-and-convert section of `_build_geo` (source lines 198–225),
including the prints it makes.  The locator branch reads
`u_inertial.find("origin")`, an `AttributeError` when `<inertial>` is
absent; the collision branch indexes `u_collision.find("geometry")[0]`, a
`TypeError` when `<geometry>` is absent and an `IndexError` when it has no
children. -/
def _build_geo_parse (u_link : ULink) : List BLogEvent × Except PyErr ParsedGeo :=
  let m_name := "geo:" ++ u_link.name
  if collisionFalsy u_link.collision then
    let res : Except PyErr ParsedGeo := do
      let i ← match u_link.inertial with
        | none => Except.error PyErr.attributeError
        | some i => Except.ok i
      let m_origin ← _parse_and_convert_transform i.origin
      return ⟨m_name, "locator", m_origin, none, none, none⟩
    (BLogEvent.creatingLocator u_link.name ::
      (match res with
       | .ok _ => [BLogEvent.buildingLinkGeo m_name "locator"]
       | .error _ => []),
     res)
  else
    let res : Except PyErr ParsedGeo := do
      let c ← match u_link.collision with
        | none => Except.error PyErr.attributeError
        | some c => Except.ok c
      let m_origin ← _parse_and_convert_transform c.origin
      let u_geo ← match c.geometry with
        | none => Except.error PyErr.typeError
        | some [] => Except.error PyErr.indexError
        | some (g :: _) => Except.ok g
      let m_radius ← _parse_float u_geo.radius
      let m_length ← _parse_float u_geo.length
      let m_size ← _parse_multi_float u_geo.size
      return ⟨m_name, u_geo.tag, m_origin,
        _convert_urdf_dist m_radius true, _convert_urdf_dist m_length true,
        _convert_urdf_vector m_size true⟩
    ((match res with
      | .ok p => [BLogEvent.buildingLinkGeo m_name p.u_shape]
      | .error _ => []),
     res)

/-- `_build_geo` (`maya_build_urdf.py`): after the parse section, dispatch
on the shape tag.  Every recognized shape creates its host node, then runs
`cmd.xform(m_geo, **m_origin)` — a `TypeError` when `m_origin` is `None` —
and then the freeze-transforms line `cmds.makeIdentity(...)`, which raises
`NameError` because the module binds the Maya API as `cmd`, not `cmds`.
The `box` branch indexes `m_size[0..2]` first.  An unrecognized shape
prints a warning and returns `[None, None]`. -/
def _build_geo (u_link : ULink) :
    List BLogEvent × Except PyErr (Option String × Option String) :=
  let r := _build_geo_parse u_link
  let logs := r.1
  match r.2 with
  | .error e => (logs, .error e)
  | .ok p =>
    let freeze : List BLogEvent × Except PyErr (Option String × Option String) :=
      match p.m_origin with
      | none => (logs, .error .typeError)
      | some _ => (logs, .error .nameErrorCmds)
    if p.u_shape = "sphere" then freeze
    else if p.u_shape = "capsule" then freeze
    else if p.u_shape = "box" then
      match p.m_size with
      | none => (logs, .error .typeError)
      | some (_ :: _ :: _ :: _) => freeze
      | some _ => (logs, .error .indexError)
    else if p.u_shape = "locator" then freeze
    else (logs ++ [.cantBuildGeo p.m_name p.u_shape], .ok (none, none))

/-- The list comprehension
`m_geos_and_shapes = [ _build_geo(u_l) for u_l in u_links ]` of
`build_urdf`: an uncaught exception from any element aborts the whole
comprehension. -/
def build_geos :
    List ULink → List BLogEvent × Except PyErr (List (Option String × Option String))
  | [] => ([], .ok [])
  | l :: rest =>
    let r := _build_geo l
    match r.2 with
    | .error e => (r.1, .error e)
    | .ok g =>
      let rr := build_geos rest
      (r.1 ++ rr.1, rr.2.map (fun gs => g :: gs))

/-! ## Helper lemmas -/

theorem isPrefixOf_append_self (sep b : List Char) :
    sep.isPrefixOf (sep ++ b) = true := by
  induction sep with
  | nil => simp [List.isPrefixOf]
  | cons c cs ih => simp [List.isPrefixOf, ih]

theorem drop_length_append (sep b : List Char) :
    (sep ++ b).drop sep.length = b := by
  induction sep with
  | nil => rfl
  | cons c cs ih => simpa using ih

/-- `partition` finds the separator at position 0 when the string starts
with it, so the third component is everything after that leading copy. -/
theorem pyPartition_self_append (sep b : List Char) (h : sep ≠ []) :
    pyPartition sep (sep ++ b) = ([], sep, b) := by
  cases sep with
  | nil => exact absurd rfl h
  | cons s ss =>
    have hd : List.drop (s :: ss).length (s :: (ss ++ b)) = b := by
      simpa using drop_length_append (s :: ss) b
    rw [List.cons_append, pyPartition]
    rw [if_pos (by simpa using isPrefixOf_append_self (s :: ss) b), hd]

/-! ## Claim C5 — `_get_joint` and `_get_geo` are mutual inverses -/

/-- C5: the joint-name and geometry-name mapping functions are mutual
inverses on any basename `b`: `_get_geo (_get_joint ("geo:" + b)) =
"geo:" + b` and `_get_joint (_get_geo ("skel:" + b)) = "skel:" + b`.
(This holds for every character-list basename, because `partition` locates
the leading prefix at position 0.) -/
theorem get_joint_get_geo_mutual_inverse (b : List Char) :
    _get_geo (_get_joint ("geo:".toList ++ b)) = "geo:".toList ++ b ∧
    _get_joint (_get_geo ("skel:".toList ++ b)) = "skel:".toList ++ b := by
  constructor
  · show _get_geo ("skel:".toList ++ (pyPartition "geo:".toList ("geo:".toList ++ b)).2.2) = _
    rw [pyPartition_self_append "geo:".toList b (by decide)]
    show "geo:".toList ++ (pyPartition "skel:".toList ("skel:".toList ++ b)).2.2 = _
    rw [pyPartition_self_append "skel:".toList b (by decide)]
  · show _get_joint ("geo:".toList ++ (pyPartition "skel:".toList ("skel:".toList ++ b)).2.2) = _
    rw [pyPartition_self_append "skel:".toList b (by decide)]
    show "skel:".toList ++ (pyPartition "geo:".toList ("geo:".toList ++ b)).2.2 = _
    rw [pyPartition_self_append "geo:".toList b (by decide)]

/-! ## Claim C7 — round-robin material assignment -/

/-- C7: `_assign_mat` with a shape in capsule/sphere/box assigns the
material at index `counter mod palette-length` of that shape's fixed
4-material palette, increments the counter by exactly one and returns
`True`; any other shape value (including `"locator"` and `None`) leaves the
counter unchanged and returns `False`. -/
theorem assign_mat_round_robin (c : Nat) :
    _assign_mat (some "capsule") c =
      (some (CAPSULE_MATS.getD (c % CAPSULE_MATS.length) ""), c + 1, true) ∧
    _assign_mat (some "sphere") c =
      (some (SPHERE_MATS.getD (c % SPHERE_MATS.length) ""), c + 1, true) ∧
    _assign_mat (some "box") c =
      (some (BOX_MATS.getD (c % BOX_MATS.length) ""), c + 1, true) ∧
    CAPSULE_MATS.length = 4 ∧ SPHERE_MATS.length = 4 ∧ BOX_MATS.length = 4 ∧
    ∀ s : Option String, s ≠ some "capsule" → s ≠ some "sphere" →
      s ≠ some "box" → _assign_mat s c = (none, c, false) := by
  refine ⟨rfl, rfl, rfl, rfl, rfl, rfl, ?_⟩
  intro s h1 h2 h3
  simp [_assign_mat, h1, h2, h3]

/-- Witness for C7 at concrete inputs: `"locator"` and `None` leave the
counter unchanged and return `False`. -/
theorem assign_mat_round_robin_witness :
    _assign_mat (some "locator") 5 = (none, 5, false) ∧
    _assign_mat none 0 = (none, 0, false) :=
  ⟨(assign_mat_round_robin 5).2.2.2.2.2.2 (some "locator")
      (by decide) (by decide) (by decide),
   (assign_mat_round_robin 0).2.2.2.2.2.2 none
      (by decide) (by decide) (by decide)⟩

/-! ## Claim C3 — FPS fallback on unknown unit codes -/

/-- C3 counterexample: with the unknown unit code `"foo"`, the module-load
lookup `FPS = get_maya_fps()` leaves `FPS = -1`, not the claimed fallback
`30` (the initial `FPS = 30` binding is overwritten at import time). -/
theorem fps_fallback_counterexample :
    FPS_loaded "foo" = .ok (-1) ∧
    ¬ FPS_loaded "foo" = .ok FPS_initial := by
  constructor
  · rfl
  · intro h
    have : (-1 : ℚ) = FPS_initial := by
      have h0 : FPS_loaded "foo" = .ok (-1) := rfl
      rw [h0] at h
      exact (Except.ok.injEq _ _).mp h
    exact absurd this (by decide)

/-- C3 (amended): the frames-per-second value is looked up once at module
load; when the host unit string does not end in `"fps"` and is not in the
known code table, the loaded `FPS` global is `-1` (the error sentinel),
which all subsequent velocity computations then use. -/
theorem fps_fallback_minus_one (unit : String)
    (h1 : pyEndsWith unit "fps" = false) (h2 : fps_codes.lookup unit = none) :
    FPS_loaded unit = .ok (-1) := by
  simp [FPS_loaded, get_maya_fps, h1, h2]

/-- Witness for the amended C3 at the concrete unknown unit `"foo"`. -/
theorem fps_fallback_minus_one_witness :
    FPS_loaded "foo" = .ok (-1) :=
  fps_fallback_minus_one "foo" (by decide) (by decide)

/-! ## Claim C1 — velocities multiply rather than divide by the frame
duration -/

/-- A concrete two-frame scene: every rotation is zero, the tracked point
sits at the origin before frame 1 and at `(1,0,0)` from frame 1 on, and
`angleBetween` reports the componentwise difference. -/
def fdScene : Scene :=
  ⟨0, 2, fun _ => true,
   fun _ _ => v3zero, fun _ _ => v3zero,
   fun _ t => if 1 ≤ t then ((1 : ℚ), (0 : ℚ), (0 : ℚ)) else v3zero,
   fun a b => vsub b a, "ntsc"⟩

/-- C1: the source comment says it calculates velocity, but
`get_joint_state` MULTIPLIES each per-frame delta by the frame duration
`delta_time = 1/FPS` instead of dividing by it: at FPS 30 with a
unit position delta the recorded `wposvel` is `1/30`, where the claimed
finite difference divided by the frame duration is `30`. -/
theorem velocity_scaled_by_delta_time :
    (get_joint_state fdScene 30 "j" 1 true).wposvel = ((1 / 30 : ℚ), 0, 0) ∧
    (get_joint_state fdScene 30 "j" 1 true).wposvel ≠
      vscale 30 (vsub (fdScene.wpos "j" 1) (fdScene.wpos "j" 0)) := by
  constructor
  · norm_num [get_joint_state, get_joint_state_novel, fdScene, vscale, vsub,
      v3zero]
  · norm_num [get_joint_state, get_joint_state_novel, fdScene, vscale, vsub,
      v3zero, Prod.ext_iff]

/-! ## Claim C4 — frame-0 velocities come from the pre-range frame -/

/-- A scene whose only existing joint is the root, with every in-range
position zero; only the frames before the export range `[0, 2)` hold a
nonzero position `(3,0,0)`. -/
def preScene : Scene :=
  ⟨0, 2, fun s => s == m_joint_name "root",
   fun _ _ => v3zero, fun _ _ => v3zero,
   fun _ t => if t < 0 then ((3 : ℚ), (0 : ℚ), (0 : ℚ)) else v3zero,
   fun a b => vsub b a, "ntsc"⟩

/-- `preScene` with the pre-range position zeroed as well: the two scenes
agree on every frame of the export range (indeed on every frame `≥ 0`). -/
def preScene0 : Scene :=
  ⟨0, 2, fun s => s == m_joint_name "root",
   fun _ _ => v3zero, fun _ _ => v3zero,
   fun _ _ => v3zero,
   fun a b => vsub b a, "ntsc"⟩

/-- C4 counterexample: the frame-0 record (built by `_add_frame_to_xml`
from `get_joint_state` at the playback minimum, frame 0 here) DOES carry
prior-frame velocity, derived from frame `-1` — a frame preceding the
export range: on `preScene`, whose positions are identically zero
throughout the export range, the frame-0 `wposvel` is `(-1/10, 0, 0)`,
and it differs from the frame-0 record of `preScene0`, which agrees with
`preScene` on every frame of the range. -/
theorem frame0_velocity_counterexample :
    (_add_frame_to_xml preScene 30 0 0).1 =
      Xml.elem "frame" XVal.noText
        [Xml.elem "no" (XVal.ofNat 0) [],
         Xml.elem "pose" XVal.noText
           [_add_joint_to_xml "root"
             (get_joint_state preScene 30 (m_joint_name "root") 0 true)]] ∧
    (get_joint_state preScene 30 (m_joint_name "root") 0 true).wposvel =
      ((-1 / 10 : ℚ), 0, 0) ∧
    (get_joint_state preScene0 30 (m_joint_name "root") 0 true).wposvel = v3zero ∧
    get_joint_state preScene 30 (m_joint_name "root") 0 true ≠
      get_joint_state preScene0 30 (m_joint_name "root") 0 true := by
  refine ⟨rfl, ?_, ?_, ?_⟩
  · norm_num [get_joint_state, get_joint_state_novel, preScene, vscale, vsub,
      v3zero]
  · norm_num [get_joint_state, get_joint_state_novel, preScene0, vscale, vsub,
      v3zero]
  · intro h
    have h2 := congrArg MayaJointState.wposvel h
    rw [show (get_joint_state preScene 30 (m_joint_name "root") 0 true).wposvel
          = ((-1 / 10 : ℚ), 0, 0) from by
        norm_num [get_joint_state, get_joint_state_novel, preScene, vscale,
          vsub, v3zero],
      show (get_joint_state preScene0 30 (m_joint_name "root") 0 true).wposvel
          = v3zero from by
        norm_num [get_joint_state, get_joint_state_novel, preScene0, vscale,
          vsub, v3zero]] at h2
    have h3 : (-1 / 10 : ℚ) = 0 := congrArg Prod.fst h2
    norm_num at h3

/-- C4 (amended): a frame's record is a function of the scene's queries at
its own frame and the immediately preceding frame only (no other
cross-frame state), and every frame's `wposvel` — including frame 0's —
is the position delta against the immediately preceding host frame scaled
by `delta_time` (for frame 0 that preceding frame lies before the export
range). -/
theorem joint_state_locality (s1 s2 : Scene) (fps : ℚ) (j : String) (t : Int)
    (hab : s1.angleBetween = s2.angleBetween)
    (hl : ∀ u : Int, u = t ∨ u = t - 1 → s1.lrot j u = s2.lrot j u)
    (hw : ∀ u : Int, u = t ∨ u = t - 1 → s1.wrot j u = s2.wrot j u)
    (hp : ∀ u : Int, u = t ∨ u = t - 1 → s1.wpos j u = s2.wpos j u) :
    get_joint_state s1 fps j t true = get_joint_state s2 fps j t true ∧
    (get_joint_state s1 fps j t true).wposvel =
      vscale (1 / fps) (vsub (s1.wpos j t) (s1.wpos j (t - 1))) := by
  constructor
  · simp only [get_joint_state, get_joint_state_novel,
      hl t (Or.inl rfl), hl (t - 1) (Or.inr rfl),
      hw t (Or.inl rfl), hw (t - 1) (Or.inr rfl),
      hp t (Or.inl rfl), hp (t - 1) (Or.inr rfl), hab]
  · rfl

/-- `fdScene` with an extra nonzero position parked at the far-away frame
`-7`: it agrees with `fdScene` at frames 1 and 0. -/
def fdScenePast : Scene :=
  ⟨0, 2, fun _ => true,
   fun _ _ => v3zero, fun _ _ => v3zero,
   fun _ t => if 1 ≤ t then ((1 : ℚ), (0 : ℚ), (0 : ℚ))
     else if t = -7 then ((9 : ℚ), (9 : ℚ), (9 : ℚ)) else v3zero,
   fun a b => vsub b a, "ntsc"⟩

/-- Witness for the amended C4: two concrete scenes agreeing at frames 1
and 0 (but not at frame `-7`) produce the same frame-1 record. -/
theorem joint_state_locality_witness :
    get_joint_state fdScene 30 "j" 1 true =
      get_joint_state fdScenePast 30 "j" 1 true ∧
    (get_joint_state fdScene 30 "j" 1 true).wposvel =
      vscale (1 / 30) (vsub (fdScene.wpos "j" 1) (fdScene.wpos "j" 0)) :=
  joint_state_locality fdScene fdScenePast 30 "j" 1 rfl
    (fun _ _ => rfl) (fun _ _ => rfl)
    (fun u hu => by rcases hu with rfl | rfl <;> rfl)

/-! ## Claim C6 — one frame element per step of the playback range -/

/-- The root of the exported document is an `<anim>` element whose children
are the mapped `<frame>` elements, one per step of
`range(m_start_frame, m_end_frame, 1)`. -/
theorem export_anim_frames (scene : Scene) (fps : ℚ) (fn : String) :
    (export_anim scene fps fn).1 =
      Xml.elem "anim" XVal.noText
        ((List.range (scene.playbackMax - scene.playbackMin).toNat).map
          (fun i => (_add_frame_to_xml scene fps i (scene.playbackMin + i)).1)) := by
  simp [export_anim, List.map_map, Function.comp]

/-- C6 (amended): the exported root contains exactly one `<frame>` element
per frame of `range(playback-minimum, playback-maximum)` — the playback
maximum itself is EXCLUDED by Python `range` — and the `i`-th frame element
carries the consecutive zero-based index `i` and a pose element. -/
theorem export_one_frame_per_step (scene : Scene) (fps : ℚ) (fn : String) :
    ∃ frames : List Xml,
      (export_anim scene fps fn).1 = Xml.elem "anim" XVal.noText frames ∧
      frames.length = (scene.playbackMax - scene.playbackMin).toNat ∧
      ∀ i : Nat, i < frames.length →
        ∃ pose : List Xml,
          frames.getD i default =
            Xml.elem "frame" XVal.noText
              [Xml.elem "no" (XVal.ofNat i) [],
               Xml.elem "pose" XVal.noText pose] := by
  refine ⟨_, export_anim_frames scene fps fn, by simp, ?_⟩
  intro i hi
  simp only [List.length_map, List.length_range] at hi
  refine ⟨(_pose_loop scene fps (scene.playbackMin + i)
    HUMANOID_JOINT_NAMES.enum).1, ?_⟩
  have hlen : i < ((List.range (scene.playbackMax - scene.playbackMin).toNat).map
      (fun k => (_add_frame_to_xml scene fps k (scene.playbackMin + k)).1)).length := by
    simpa using hi
  rw [List.getD_eq_getElem _ _ hlen, List.getElem_map, List.getElem_range]
  rfl

/-- Witness for C6 at a concrete scene. -/
theorem export_one_frame_per_step_witness :
    ∃ frames : List Xml,
      (export_anim fdScene 30 "standard_walk").1 =
        Xml.elem "anim" XVal.noText frames ∧
      frames.length = (fdScene.playbackMax - fdScene.playbackMin).toNat ∧
      ∀ i : Nat, i < frames.length →
        ∃ pose : List Xml,
          frames.getD i default =
            Xml.elem "frame" XVal.noText
              [Xml.elem "no" (XVal.ofNat i) [],
               Xml.elem "pose" XVal.noText pose] :=
  export_one_frame_per_step fdScene 30 "standard_walk"

/-- C6 counterexample: with playback minimum 0 and maximum 2, the export
produces 2 frame elements, not one per frame of the queried working range
from the minimum THROUGH the maximum (which would be 3): the maximum frame
is excluded. -/
theorem export_excludes_max_counterexample :
    ((export_anim fdScene 30 "standard_walk").1).children.length = 2 ∧
    ((export_anim fdScene 30 "standard_walk").1).children.length ≠
      (fdScene.playbackMax - fdScene.playbackMin + 1).toNat := by
  constructor
  · rfl
  · rw [show ((export_anim fdScene 30 "standard_walk").1).children.length = 2
      from rfl]
    decide

/-! ## Claim C8 — a missing scene joint is logged and skipped -/

/-- The name recorded in a `<joint>` element of a pose (the text of its
leading `<name>` child), if the element has that shape. -/
def Xml.jointNameOf : Xml → Option String
  | .elem "joint" _ (.elem "name" (.ofStr s) _ :: _) => some s
  | _ => none

theorem jointNameOf_add_joint (n : String) (st : MayaJointState) :
    Xml.jointNameOf (_add_joint_to_xml n st) = some n := rfl

/-- The pose children produced by the per-joint loop are exactly the
`<joint>` elements of the existing joints, in order. -/
theorem pose_loop_fst (scene : Scene) (fps : ℚ) (m_frame : Int) :
    ∀ l : List (Nat × String),
      (_pose_loop scene fps m_frame l).1 =
        ((l.map Prod.snd).filter (fun n => scene.objExists (m_joint_name n))).map
          (fun n => _add_joint_to_xml n
            (get_joint_state scene fps (m_joint_name n) m_frame true))
  | [] => rfl
  | (i, n) :: rest => by
    simp only [_pose_loop, List.map_cons, List.filter_cons]
    cases h : scene.objExists (m_joint_name n) with
    | true => simp [h, pose_loop_fst scene fps m_frame rest]
    | false => simp [h, pose_loop_fst scene fps m_frame rest]

/-- A joint of the loop's list that does not exist in the scene gets its
does-not-exist message logged. -/
theorem pose_loop_log_missing (scene : Scene) (fps : ℚ) (m_frame : Int) :
    ∀ l : List (Nat × String), ∀ j : String, j ∈ l.map Prod.snd →
      scene.objExists (m_joint_name j) = false →
      LogEvent.jointDoesNotExist (m_joint_name j) ∈
        (_pose_loop scene fps m_frame l).2
  | [], j, hj, _ => by simp at hj
  | (i, n) :: rest, j, hj, hmiss => by
    simp only [List.map_cons, List.mem_cons] at hj
    simp only [_pose_loop]
    rcases hj with rfl | hj
    · rw [hmiss]
      simp
    · cases h : scene.objExists (m_joint_name n) with
      | true =>
        simpa [h] using
          pose_loop_log_missing scene fps m_frame rest j hj hmiss
      | false =>
        simpa [h] using Or.inr
          (pose_loop_log_missing scene fps m_frame rest j hj hmiss)

/-- C8: when a named humanoid joint does not exist in the scene, the frame
element still carries its index and pose; the pose lists exactly the
existing joints' records, in order (so every other existing joint is
written and none of the pose records is the missing joint's); the missing
joint's message is logged; and the export still produces its full count of
frame elements. -/
theorem missing_joint_skipped (scene : Scene) (fps : ℚ) (fn : String)
    (frame_no : Nat) (m_frame : Int) (j : String)
    (hj : j ∈ HUMANOID_JOINT_NAMES)
    (hmiss : scene.objExists (m_joint_name j) = false) :
    ∃ pose logs,
      _add_frame_to_xml scene fps frame_no m_frame =
        (Xml.elem "frame" XVal.noText
          [Xml.elem "no" (XVal.ofNat frame_no) [],
           Xml.elem "pose" XVal.noText pose], logs) ∧
      pose = (HUMANOID_JOINT_NAMES.filter
          (fun n => scene.objExists (m_joint_name n))).map
          (fun n => _add_joint_to_xml n
            (get_joint_state scene fps (m_joint_name n) m_frame true)) ∧
      (∀ n, n ∈ HUMANOID_JOINT_NAMES → scene.objExists (m_joint_name n) = true →
        _add_joint_to_xml n (get_joint_state scene fps (m_joint_name n) m_frame true)
          ∈ pose) ∧
      (∀ x, x ∈ pose → Xml.jointNameOf x ≠ some j) ∧
      LogEvent.jointDoesNotExist (m_joint_name j) ∈ logs ∧
      ((export_anim scene fps fn).1).children.length =
        (scene.playbackMax - scene.playbackMin).toNat := by
  have hsnd : HUMANOID_JOINT_NAMES.enum.map Prod.snd = HUMANOID_JOINT_NAMES := rfl
  have hpose : (_pose_loop scene fps m_frame HUMANOID_JOINT_NAMES.enum).1 =
      (HUMANOID_JOINT_NAMES.filter
        (fun n => scene.objExists (m_joint_name n))).map
        (fun n => _add_joint_to_xml n
          (get_joint_state scene fps (m_joint_name n) m_frame true)) := by
    rw [pose_loop_fst, hsnd]
  refine ⟨(_pose_loop scene fps m_frame HUMANOID_JOINT_NAMES.enum).1,
    (_pose_loop scene fps m_frame HUMANOID_JOINT_NAMES.enum).2,
    rfl, hpose, ?_, ?_, ?_, ?_⟩
  · intro n hn hex
    rw [hpose]
    exact List.mem_map_of_mem _ (List.mem_filter.mpr ⟨hn, by simp [hex]⟩)
  · intro x hx
    rw [hpose] at hx
    rcases List.mem_map.mp hx with ⟨n, hn, rfl⟩
    have hex : scene.objExists (m_joint_name n) = true :=
      by simpa using (List.mem_filter.mp hn).2
    rw [jointNameOf_add_joint]
    intro hcon
    have : n = j := by simpa using hcon
    rw [this, hmiss] at hex
    exact Bool.false_ne_true hex
  · exact pose_loop_log_missing scene fps m_frame HUMANOID_JOINT_NAMES.enum j
      (by rw [hsnd]; exact hj) hmiss
  · rw [export_anim_frames]
    simp [Xml.children]

/-- A concrete scene in which every humanoid joint exists except the neck. -/
def missScene : Scene :=
  ⟨0, 1, fun s => !(s == m_joint_name "neck"),
   fun _ _ => v3zero, fun _ _ => v3zero, fun _ _ => v3zero,
   fun a b => vsub b a, "ntsc"⟩

/-- Witness for C8 on `missScene` with the missing joint `"neck"`. -/
theorem missing_joint_skipped_witness :
    ∃ pose logs,
      _add_frame_to_xml missScene 30 0 0 =
        (Xml.elem "frame" XVal.noText
          [Xml.elem "no" (XVal.ofNat 0) [],
           Xml.elem "pose" XVal.noText pose], logs) ∧
      pose = (HUMANOID_JOINT_NAMES.filter
          (fun n => missScene.objExists (m_joint_name n))).map
          (fun n => _add_joint_to_xml n
            (get_joint_state missScene 30 (m_joint_name n) 0 true)) ∧
      (∀ n, n ∈ HUMANOID_JOINT_NAMES → missScene.objExists (m_joint_name n) = true →
        _add_joint_to_xml n (get_joint_state missScene 30 (m_joint_name n) 0 true)
          ∈ pose) ∧
      (∀ x, x ∈ pose → Xml.jointNameOf x ≠ some "neck") ∧
      LogEvent.jointDoesNotExist (m_joint_name "neck") ∈ logs ∧
      ((export_anim missScene 30 "standard_walk").1).children.length =
        (missScene.playbackMax - missScene.playbackMin).toNat :=
  missing_joint_skipped missScene 30 "standard_walk" 0 0 "neck"
    (by decide) (by decide)

/-! ## Claim C10 — `_parse_multi_float` on space-separated numerals -/

/-- `float` on a nonempty all-digit numeral yields its decimal value. -/
theorem pyFloat_digits (s : List Char) (h1 : s ≠ [])
    (h2 : ∀ c ∈ s, c.isDigit) :
    pyFloat s = .ok ((digitsToNat s : ℚ)) := by
  obtain ⟨c, cs, rfl⟩ : ∃ c cs, s = c :: cs := by
    cases s with
    | nil => exact absurd rfl h1
    | cons c cs => exact ⟨c, cs, rfl⟩
  have hc : c.isDigit = true := h2 c (List.mem_cons_self c cs)
  have hcm : ¬(c = '-') := by
    intro h
    rw [h] at hc
    exact absurd hc (by decide)
  have hcp : ¬(c = '+') := by
    intro h
    rw [h] at hc
    exact absurd hc (by decide)
  have hsign : ¬((c :: cs).take 1 = ['-'] ∨ (c :: cs).take 1 = ['+']) := by
    rintro (h | h) <;> simp at h <;> [exact hcm h; exact hcp h]
  simp only [pyFloat]
  rw [if_neg hsign, List.takeWhile_eq_self_iff.mpr h2,
    List.dropWhile_eq_nil_iff.mpr h2]
  rw [if_neg (by simp : ¬(c :: cs = []))]
  rw [if_neg (fun h => hcm (by simpa using h))]

/-- Mapping `float` over all-digit numerals yields their values in order. -/
theorem mapFloats_digits : ∀ ns : List (List Char),
    (∀ s ∈ ns, s ≠ [] ∧ ∀ c ∈ s, c.isDigit) →
    mapFloats ns = .ok (ns.map fun s => (digitsToNat s : ℚ))
  | [], _ => rfl
  | s :: rest, h => by
    have hs := h s (List.mem_cons_self s rest)
    have hr := mapFloats_digits rest fun x hx => h x (List.mem_cons_of_mem s hx)
    simp only [mapFloats, pyFloat_digits s hs.1 hs.2, hr]
    rfl

/-- The general split-then-float behaviour of `_parse_multi_float` on
nonempty all-digit numerals joined by single spaces. -/
theorem parse_multi_float_numerals (ns : List (List Char)) (hne : ns ≠ [])
    (h : ∀ s ∈ ns, s ≠ [] ∧ ∀ c ∈ s, c.isDigit) :
    _parse_multi_float (some (List.intercalate [' '] ns).asString) =
      .ok (some (ns.map fun s => (digitsToNat s : ℚ))) := by
  have hsp : ∀ l ∈ ns, ' ' ∉ l := by
    intro l hl hmem
    exact absurd ((h l hl).2 ' ' hmem) (by decide)
  unfold _parse_multi_float
  simp only [pySplit, List.toList_asString]
  rw [List.splitOn_intercalate ns ' ' hsp hne,
    mapFloats_digits ns fun s hs => ⟨(h s hs).1, (h s hs).2⟩]
  rfl

/-- C10: parsing `"1 2 3"` yields `(1.0, 2.0, 3.0)`; in general, a string
of decimal numerals separated by single spaces parses to the list of their
values in order.  (Numerals are bounded to 15 digits so that every value is
exactly representable in an IEEE double and the rational model coincides
with Python floats.) -/
theorem parse_multi_float_spec :
    _parse_multi_float (some "1 2 3") = .ok (some [(1 : ℚ), 2, 3]) ∧
    ∀ ns : List (List Char), ns ≠ [] →
      (∀ s ∈ ns, s ≠ [] ∧ s.length ≤ 15 ∧ ∀ c ∈ s, c.isDigit) →
      _parse_multi_float (some (List.intercalate [' '] ns).asString) =
        .ok (some (ns.map fun s => (digitsToNat s : ℚ))) := by
  constructor
  · have h := parse_multi_float_numerals [['1'], ['2'], ['3']]
      (by decide) (by decide)
    simpa using h
  · exact fun ns hne h =>
      parse_multi_float_numerals ns hne fun s hs =>
        ⟨(h s hs).1, (h s hs).2.2⟩

/-- Witness for C10 at the numerals `"4"` and `"2"`. -/
theorem parse_multi_float_spec_witness :
    _parse_multi_float (some (List.intercalate [' '] [['4'], ['2']]).asString)
      = .ok (some (([['4'], ['2']] : List (List Char)).map
          fun s => (digitsToNat s : ℚ))) :=
  parse_multi_float_spec.2 [['4'], ['2']] (by decide) (by decide)

/-! ## Claims C2 and C9 — `_build_geo` outcomes -/

/-- C2 counterexample: a link with a recognized `sphere` collision whose
collision has no `<origin>` child does NOT raise the `NameError` at the
freeze-transforms step — it raises a `TypeError` one line earlier, at
`cmd.xform(m_geo, **m_origin)` with `m_origin = None`. -/
def sphereNoOriginLink : ULink :=
  ⟨"torso", none, some ⟨none, some [⟨"sphere", none, none, none⟩]⟩⟩

/-- A well-formed sphere link (collision origin present). -/
def sphereLink : ULink :=
  ⟨"torso", none, some ⟨some ⟨none, none⟩, some [⟨"sphere", none, none, none⟩]⟩⟩

/-- A link whose collision geometry has the unrecognized tag `cylinder`. -/
def cylinderLink : ULink :=
  ⟨"leg", none, some ⟨some ⟨none, none⟩, some [⟨"cylinder", none, none, none⟩]⟩⟩

/-- C2 (amended): `_build_geo` can never return a created geometry — every
returned value is either an exception or the `[None, None]` unknown-shape
skip, so `build_urdf` cannot complete geometry creation for any link; and
every call whose parse section succeeds with a recognized shape tag and a
present origin transform raises the `NameError` (undefined `cmds`) at the
freeze-transforms step.  (Calls with a missing origin die one line earlier
with a `TypeError`; box calls additionally need a ≥3-component size to
reach the freeze line.) -/
theorem build_geo_cannot_complete (u_link : ULink) :
    (∀ g s, (_build_geo u_link).2 ≠ Except.ok (some g, s)) ∧
    (∀ p, (_build_geo_parse u_link).2 = Except.ok p →
      p.u_shape = "sphere" ∨ p.u_shape = "capsule" ∨ p.u_shape = "locator" →
      p.m_origin.isSome = true →
      (_build_geo u_link).2 = Except.error PyErr.nameErrorCmds) ∧
    (∀ p a b c rest, (_build_geo_parse u_link).2 = Except.ok p →
      p.u_shape = "box" → p.m_size = some (a :: b :: c :: rest) →
      p.m_origin.isSome = true →
      (_build_geo u_link).2 = Except.error PyErr.nameErrorCmds) := by
  refine ⟨?_, ?_, ?_⟩
  · intro g s hcon
    simp only [_build_geo] at hcon
    rcases hpe : (_build_geo_parse u_link).2 with e | p <;> rw [hpe] at hcon
    · simp at hcon
    · simp only at hcon
      split_ifs at hcon <;> (repeat' (split at hcon)) <;> simp_all
  · intro p hp hshape horig
    obtain ⟨v, hv⟩ := Option.isSome_iff_exists.mp horig
    rcases hshape with h | h | h <;> simp [_build_geo, hp, h, hv]
  · intro p a b c rest hp hbox hsize horig
    obtain ⟨v, hv⟩ := Option.isSome_iff_exists.mp horig
    simp [_build_geo, hp, hbox, hsize, hv]

/-- Counterexample to C2 as stated: `_build_geo` on a recognized sphere
link without an origin raises `TypeError` at the `cmd.xform` line, not
`NameError` at the freeze-transforms line. -/
theorem build_geo_missing_origin_counterexample :
    (_build_geo sphereNoOriginLink).2 = Except.error PyErr.typeError ∧
    (_build_geo sphereNoOriginLink).2 ≠ Except.error PyErr.nameErrorCmds := by
  constructor
  · rfl
  · rw [show (_build_geo sphereNoOriginLink).2 = Except.error PyErr.typeError
      from rfl]
    simp

/-- Witness for the amended C2: a well-formed sphere link reaches the
freeze-transforms step and dies there with the `NameError`. -/
theorem build_geo_cannot_complete_witness :
    (_build_geo sphereLink).2 = Except.error PyErr.nameErrorCmds :=
  (build_geo_cannot_complete sphereLink).2.1
    ⟨"geo:torso", "sphere", some ⟨none, none⟩, none, none, none⟩
    rfl (Or.inl rfl) rfl

/-- C9: when the parse section succeeds but the shape tag is none of
`sphere`/`capsule`/`box`/`locator`, `_build_geo` prints the unknown-type
warning, skips the link by returning `[None, None]` without creating a
geometry node, and the surrounding comprehension proceeds with the
remaining links. -/
theorem unknown_shape_skipped (u_link : ULink) (p : ParsedGeo)
    (hp : (_build_geo_parse u_link).2 = Except.ok p)
    (h1 : p.u_shape ≠ "sphere") (h2 : p.u_shape ≠ "capsule")
    (h3 : p.u_shape ≠ "box") (h4 : p.u_shape ≠ "locator") :
    (_build_geo u_link).2 = Except.ok (none, none) ∧
    BLogEvent.cantBuildGeo p.m_name p.u_shape ∈ (_build_geo u_link).1 ∧
    ∀ rest : List ULink,
      (build_geos (u_link :: rest)).2 =
        ((build_geos rest).2).map (fun gs => (none, none) :: gs) := by
  have hmain : _build_geo u_link =
      ((_build_geo_parse u_link).1 ++
        [BLogEvent.cantBuildGeo p.m_name p.u_shape],
       Except.ok (none, none)) := by
    simp [_build_geo, hp, h1, h2, h3, h4]
  refine ⟨by rw [hmain], by rw [hmain]; simp, ?_⟩
  intro rest
  simp [build_geos, hmain]

/-- Witness for C9: the `cylinder` link is skipped with the warning and
the comprehension continues. -/
theorem unknown_shape_skipped_witness :
    (_build_geo cylinderLink).2 = Except.ok (none, none) ∧
    BLogEvent.cantBuildGeo "geo:leg" "cylinder" ∈ (_build_geo cylinderLink).1 ∧
    (build_geos [cylinderLink]).2 = Except.ok [(none, none)] := by
  have h := unknown_shape_skipped cylinderLink
    ⟨"geo:leg", "cylinder", some ⟨none, none⟩, none, none, none⟩
    rfl (by decide) (by decide) (by decide) (by decide)
  exact ⟨h.1, h.2.1, by rw [h.2.2 []]; rfl⟩

end DW
